import Mathlib

/-!
Verification of the motion-surveillance pipeline in `app.py`
(Security-Camera repository).

The Python source is shallowly embedded: the module-level mutable globals
(`last_motion_time`, `motion_events`, `output_frame`, `settings`,
`motion_threshold`) become explicit state that is threaded through the
functions that read and write them; numpy images become nested lists of
natural-number pixel values; calls into external libraries that the spec
treats as collaborators (`cv2.drawContours`, `cv2.putText`) are passed in
as function parameters.
-/

set_option autoImplicit false

namespace SecurityCamera

/-- A BGR pixel: blue, green and red channel intensities (`numpy` `uint8`
values, here modelled as `Nat`, all values produced stay below 256). -/
abbrev PixelBGR := Nat × Nat × Nat

/-- A colour frame as produced by `camera.read()`: a 2-D grid of BGR
pixels (rows of columns). -/
abbrev FrameC := List (List PixelBGR)

/-- A single-channel (grayscale / binary-mask) image. -/
abbrev Image := List (List Nat)

/-! ## Event debouncer (`generate_frames`, lines 190-195)

The Python loop keeps a global `last_motion_time` (initially `None`) and,
for a positive detection at `current_time`, creates an event only when
`last_motion_time is None or (current_time - last_motion_time) > 5`,
in which case it sets `last_motion_time = current_time`. -/

/-- One debounce decision: given the current `last_motion_time` state and a
pair `(current_time, motion)`, return the new `last_motion_time` and whether
a new motion event is created.  Direct embedding of `app.py` lines 190-195
(the event-creation body itself is modelled separately). -/
def debounceStep (last_motion_time : Option Int) (x : Int × Bool) :
    Option Int × Bool :=
  if x.2 then
    match last_motion_time with
    | none => (some x.1, true)
    | some l => if x.1 - l > 5 then (some x.1, true) else (some l, false)
  else (last_motion_time, false)

/-- Run the debouncer over a sequence of `(time, detected)` observations,
returning the event-created flag of each iteration in order. -/
def debounceRun (last_motion_time : Option Int) :
    List (Int × Bool) → List Bool
  | [] => []
  | x :: xs =>
    let s := debounceStep last_motion_time x
    s.2 :: debounceRun s.1 xs

/-! ## Event log (`generate_frames`, lines 203-211)

`motion_events.insert(0, {...})` followed by
`if len(motion_events) > 20: motion_events = motion_events[:20]`. -/

/-- One record of the `motion_events` list: the dict
`{'timestamp': ..., 'image': ..., 'path': ...}`. -/
structure EventRec where
  timestamp : String
  image : String
  path : String
  deriving DecidableEq, Repr

/-- Insert a new event at the head of `motion_events` and keep only the
first 20 entries, exactly as `app.py` lines 203-211. -/
def logInsert (motion_events : List EventRec) (e : EventRec) :
    List EventRec :=
  if (e :: motion_events).length > 20 then (e :: motion_events).take 20
  else e :: motion_events

/-! ## Shared frame publisher (`output_frame`, lines 218-220 and 228-243)

`output_frame` is a global, initially `None`; the acquisition loop assigns
`output_frame = frame_with_contours.copy()` under the lock, and
`generate_video_feed` reads it (skipping the iteration while it is `None`). -/

/-- Publishing replaces the shared `output_frame` with (a copy of) the
given frame, regardless of the previous state (`app.py` lines 218-220). -/
def publishFrame (frame : FrameC) (_output_frame : Option FrameC) :
    Option FrameC :=
  some frame

/-- Reading the latest published frame (`generate_video_feed` reads the
shared `output_frame`; a read does not change the state). -/
def latestFrame (output_frame : Option FrameC) : Option FrameC :=
  output_frame

/-- The initial shared state: `output_frame = None` (module top level). -/
def initialOutputFrame : Option FrameC := none

/-- The shared state after a sequence of publishes starting from the
initial `None` state. -/
def runPublishes (fs : List FrameC) : Option FrameC :=
  fs.foldl (fun s f => publishFrame f s) initialOutputFrame

/-- One iteration of `generate_video_feed`: when `output_frame` is `None`
the iteration is skipped (`continue`), otherwise the frame is yielded. -/
def videoFeedYield (output_frame : Option FrameC) : Option FrameC :=
  match output_frame with
  | none => none
  | some f => some f

/-! ## Motion detector (`detect_motion`, lines 69-89)

The `cv2` primitives used by `detect_motion` are embedded pixelwise:
`cvtColor(..., COLOR_BGR2GRAY)` with OpenCV's fixed-point coefficients,
`absdiff`, `threshold(..., 25, 255, THRESH_BINARY)`, and
`dilate(..., None, iterations=2)` (3x3 rectangular kernel; pixels outside
the image do not contribute to the maximum).  `cv2.findContours(...,
RETR_EXTERNAL, ...)` together with `cv2.contourArea` is modelled at the
level of the spec's "external connected regions": the 8-connected
components of the non-zero pixels of the binary mask, each with a
non-negative area. -/

/-- OpenCV `COLOR_BGR2GRAY` on one pixel, in OpenCV's fixed-point form:
`Y = (B*1868 + G*9617 + R*4899 + 2^13) >> 14` (the coefficients are
`0.114`, `0.587`, `0.299` scaled by `2^14`). -/
def grayPix (p : PixelBGR) : Nat :=
  (p.1 * 1868 + p.2.1 * 9617 + p.2.2 * 4899 + 8192) / 16384

/-- `cv2.cvtColor(frame, cv2.COLOR_BGR2GRAY)`. -/
def cvtColorBGR2GRAY (frame : FrameC) : Image :=
  frame.map (fun row => row.map grayPix)

/-- `cv2.absdiff` on one pair of pixel values. -/
def absdiffPx (a b : Nat) : Nat := max a b - min a b

/-- `cv2.absdiff(gray1, gray2)`: per-pixel absolute difference. -/
def absdiffImg (a b : Image) : Image :=
  List.zipWith (fun r1 r2 => List.zipWith absdiffPx r1 r2) a b

/-- `cv2.threshold(frame_diff, 25, 255, cv2.THRESH_BINARY)[1]`: pixels
strictly above the cutoff become 255, the rest 0. -/
def thresholdBin (cutoff : Nat) (img : Image) : Image :=
  img.map (fun row => row.map (fun v => if v > cutoff then 255 else 0))

/-- Pixel lookup with a default of 0 for coordinates outside the image. -/
def getPx (img : Image) (i j : Nat) : Nat :=
  (img.getD i []).getD j 0

/-- Pixel lookup at possibly-negative coordinates (0 outside the image). -/
def getPxI (img : Image) (i j : Int) : Nat :=
  if 0 ≤ i ∧ 0 ≤ j then getPx img i.toNat j.toNat else 0

/-- The 3x3 rectangular structuring element used by
`cv2.dilate(thresh, None, ...)`, as offsets around the anchor. -/
def dilOffsets : List (Int × Int) :=
  [(-1, -1), (-1, 0), (-1, 1), (0, -1), (0, 0), (0, 1), (1, -1), (1, 0), (1, 1)]

/-- Maximum of the 3x3 neighbourhood of `(i, j)`; out-of-image neighbours
contribute nothing (the image values are non-negative, so a default of 0
is neutral for `max`). -/
def neighborhoodMax (img : Image) (i j : Nat) : Nat :=
  (dilOffsets.map (fun d => getPxI img ((i : Int) + d.1) ((j : Int) + d.2))).foldl max 0

/-- One application of `cv2.dilate` with the default 3x3 kernel. -/
def dilateImg (img : Image) : Image :=
  img.enum.map (fun ir => ir.2.enum.map (fun jv => neighborhoodMax img ir.1 jv.1))

/-- `cv2.dilate(thresh, None, iterations=n)`. -/
def dilateIter : Nat → Image → Image
  | 0, img => img
  | n + 1, img => dilateIter n (dilateImg img)

/-- A pixel coordinate `(row, column)` in the binary mask. -/
abbrev Pt := Nat × Nat

/-- 8-connectivity of two distinct pixel coordinates. -/
def adjPt (p q : Pt) : Bool :=
  decide (p ≠ q ∧ max p.1 q.1 - min p.1 q.1 ≤ 1 ∧ max p.2 q.2 - min p.2 q.2 ≤ 1)

/-- One growth step of a connected component: move every remaining point
adjacent to the component into the component. -/
def growStep (comp rest : List Pt) : List Pt × List Pt :=
  (comp ++ rest.filter (fun q => comp.any (fun p => adjPt p q)),
   rest.filter (fun q => ¬ comp.any (fun p => adjPt p q)))

/-- Iterate `growStep`; a fuel of `rest.length` reaches the closure. -/
def growN : Nat → List Pt × List Pt → List Pt × List Pt
  | 0, s => s
  | n + 1, s => growN n (growStep s.1 s.2)

/-- The 8-connected components of a list of pixel coordinates (fuel-based;
a fuel equal to the list length suffices). -/
def components : Nat → List Pt → List (List Pt)
  | _, [] => []
  | 0, _ :: _ => []
  | fuel + 1, p :: rest =>
    let s := growN rest.length ([p], rest)
    s.1 :: components fuel s.2

/-- The coordinates of the non-zero pixels of a binary mask. -/
def nonzeroPx (img : Image) : List Pt :=
  (img.enum.map (fun ir =>
    ir.2.enum.filterMap (fun jv =>
      if jv.2 ≠ 0 then some (ir.1, jv.1) else none))).flatten

/-- Model of `cv2.findContours(thresh, cv2.RETR_EXTERNAL,
cv2.CHAIN_APPROX_SIMPLE)`: one external region per 8-connected component
of the non-zero mask pixels. -/
def findContoursExt (img : Image) : List (List Pt) :=
  components (nonzeroPx img).length (nonzeroPx img)

/-- Model of `cv2.contourArea`: a non-negative area for each region
(here the pixel count of the connected region). -/
def contourArea (c : List Pt) : Nat := c.length

/-- `detect_motion(frame1, frame2)` from `app.py` lines 69-89.  The
module-level global `motion_threshold` that the function reads becomes the
explicit first argument.  Returns
`(total_area > motion_threshold, thresh, contours)`. -/
def detect_motion (motion_threshold : Nat) (frame1 frame2 : FrameC) :
    Bool × Image × List (List Pt) :=
  let gray1 := cvtColorBGR2GRAY frame1
  let gray2 := cvtColorBGR2GRAY frame2
  let frame_diff := absdiffImg gray1 gray2
  let thresh := thresholdBin 25 frame_diff
  let thresh2 := dilateIter 2 thresh
  let contours := findContoursExt thresh2
  let total_area := (contours.map contourArea).sum
  (total_area > motion_threshold, thresh2, contours)

/-- Modelled from the spec (§4.2): "convert both frames to single-channel
intensity; compute absolute per-pixel difference; binarize at a fixed
intensity cutoff (design default 25 of 255); morphologically dilate the
binary mask (design default: 2 dilation iterations); extract external
connected regions (contours) from the mask; sum their areas.
`detected = (sum_area > threshold_area)`."  Returns the detection flag,
the final mask and the summed area. -/
def specDetect (threshold_area : Nat) (previous current : FrameC) :
    Bool × Image × Nat :=
  let mask := dilateIter 2 (thresholdBin 25
    (absdiffImg (cvtColorBGR2GRAY previous) (cvtColorBGR2GRAY current)))
  let sum_area := ((findContoursExt mask).map contourArea).sum
  (sum_area > threshold_area, mask, sum_area)

/-! ## One processed iteration of the acquisition loop
(`generate_frames`, lines 172-220, the `frame_count % 2 == 0` branch)

`frame_with_contours = frame.copy()` followed by the in-place
`cv2.drawContours` and `cv2.putText` is, functionally, the application of
those two drawing operations to a copy while the binding `frame` keeps the
original pixels; the drawing primitives themselves belong to `cv2` and are
taken as function parameters. -/

/-- The state produced by one processed iteration: the retained previous
frame, the frame stored into `output_frame`, the frame written as the
event snapshot (`None` when no event is created), and the new
`last_motion_time`. -/
structure IterOut where
  prev_frame : FrameC
  out_frame : FrameC
  snapshot : Option FrameC
  last_motion_time : Option Int
  deriving Repr

/-- One processed iteration of `generate_frames` (lines 172-220):
detect motion against `prev_frame`, retain `frame` as the new previous
frame, draw contours and the timestamp on a copy of `frame`, debounce,
and on event creation persist the raw `frame` (line 200:
`cv2.imwrite(filepath, frame)`); the annotated copy is what is stored
into `output_frame` (line 220). -/
def processEvenFrame
    (drawContoursFn : FrameC → List (List Pt) → FrameC)
    (putTextFn : FrameC → String → FrameC)
    (motion_threshold : Nat) (prev_frame frame : FrameC)
    (timestamp : String) (current_time : Int)
    (last_motion_time : Option Int) : IterOut :=
  let r := detect_motion motion_threshold prev_frame frame
  let frame_with_contours := putTextFn (drawContoursFn frame r.2.2) timestamp
  let d := debounceStep last_motion_time (current_time, r.1)
  { prev_frame := frame
    out_frame := frame_with_contours
    snapshot := if d.2 then some frame else none
    last_motion_time := d.1 }

/-! ## Camera-open failure path (`generate_frames`, lines 144-162)

On `cv2.VideoCapture` failure the code builds
`blank_frame = np.zeros((480, 640, 3), np.uint8)`, draws
"Camera not available" on it with `cv2.putText`, stores a copy into the
shared `output_frame` under the lock, and returns. -/

/-- `np.zeros((480, 640, 3), np.uint8)`: a solid black 480x640 frame. -/
def blankFrame : FrameC :=
  List.replicate 480 (List.replicate 640 ((0, 0, 0) : PixelBGR))

/-- The device-open failure handler of `generate_frames` (lines 144-162):
publish the fixed placeholder (text drawn by `cv2.putText`, passed in as
`putTextFn`) into `output_frame`, whatever its previous value. -/
def cameraFailurePath (putTextFn : FrameC → String → FrameC)
    (_output_frame : Option FrameC) : Option FrameC :=
  some (putTextFn blankFrame "Camera not available")

/-! ## Frame-read loop skeleton (`generate_frames`, lines 167-170)

`while True: success, frame = camera.read(); if not success: break; ...`
A read trace is a list of `Option FrameC`, `none` standing for a read
with `success == False`.  The function returns the frames the loop body
actually processes before the loop ends. -/

/-- The frames processed by the `while True` loop of `generate_frames`
over a given trace of `camera.read()` outcomes: the loop `break`s at the
first failed read and never looks at the rest of the trace. -/
def acquisitionReads : List (Option FrameC) → List FrameC
  | [] => []
  | none :: _ => []
  | some f :: rest => f :: acquisitionReads rest

/-! ## Event creation and the snapshot write (`generate_frames`, 197-211)

The snapshot write `cv2.imwrite(filepath, frame)` sits inside the event
branch with no `try/except` and its boolean return value is never
inspected: an exception propagates out of the generator (the acquisition
thread dies), while a `False` return is ignored and the event is inserted
into `motion_events` regardless. -/

/-- Outcome of the `cv2.imwrite` call. -/
inductive WriteOutcome where
  | success
  | returnedFalse
  | raised
  deriving DecidableEq, Repr

/-- The event-creation block of `generate_frames` (lines 197-211) as a
function of the snapshot-write outcome: `Except.error` models the
uncaught exception killing the generator; in the other two cases the
event is inserted (and the log trimmed) unconditionally. -/
def createEventWithWrite (w : WriteOutcome) (motion_events : List EventRec)
    (e : EventRec) : Except String (List EventRec) :=
  match w with
  | .raised => .error "uncaught exception from cv2.imwrite"
  | _ => .ok (logInsert motion_events e)

/-! ## Settings update (`update_settings`, lines 281-303) -/

/-- The `settings['email']` dict. -/
structure EmailSettings where
  enabled : Bool
  smtp_server : String
  smtp_port : Nat
  username : String
  password : String
  recipient : String
  deriving DecidableEq, Repr

/-- The `settings['twilio']` dict. -/
structure TwilioSettings where
  enabled : Bool
  account_sid : String
  auth_token : String
  from_number : String
  to_number : String
  deriving DecidableEq, Repr

/-- The module-level `settings` dict. -/
structure Settings where
  email : EmailSettings
  twilio : TwilioSettings
  deriving DecidableEq, Repr

/-- The submitted form (`request.form`): each text field is `none` when
absent from the form and `some s` when submitted with value `s`; the
checkbox fields are represented the same way so that presence
(`'email_enabled' in request.form`) is `Option.isSome`.  `smtp_port` is
modelled as an already-parsed number (`int(request.form.get('smtp_port',
587))`; a non-numeric submission would raise, which no claim concerns). -/
structure SettingsForm where
  email_enabled : Option String
  smtp_server : Option String
  smtp_port : Option Nat
  email_username : Option String
  email_password : Option String
  email_recipient : Option String
  twilio_enabled : Option String
  twilio_account_sid : Option String
  twilio_auth_token : Option String
  twilio_from_number : Option String
  twilio_to_number : Option String
  deriving DecidableEq, Repr

/-- Python truthiness of `request.form.get(field)`: `None` and the empty
string are falsy, any other string truthy. -/
def pyTruthy : Option String → Bool
  | none => false
  | some s => s ≠ ""

/-- `update_settings` (lines 281-303): every field is overwritten from
the form (strings defaulting to `''`, the port to 587, the enabled flags
to key presence), except that the email password and the Twilio auth
token are assigned only when the submitted value is truthy. -/
def update_settings (settings : Settings) (form : SettingsForm) : Settings :=
  { email :=
      { enabled := form.email_enabled.isSome
        smtp_server := form.smtp_server.getD ""
        smtp_port := form.smtp_port.getD 587
        username := form.email_username.getD ""
        password :=
          match form.email_password with
          | some s => if s ≠ "" then s else settings.email.password
          | none => settings.email.password
        recipient := form.email_recipient.getD "" }
    twilio :=
      { enabled := form.twilio_enabled.isSome
        account_sid := form.twilio_account_sid.getD ""
        auth_token :=
          match form.twilio_auth_token with
          | some s => if s ≠ "" then s else settings.twilio.auth_token
          | none => settings.twilio.auth_token
        from_number := form.twilio_from_number.getD ""
        to_number := form.twilio_to_number.getD "" } }

/-- Every pixel of the image is zero. -/
def IsZeroImg (img : Image) : Prop :=
  ∀ row ∈ img, ∀ v ∈ row, v = 0

/-! ### Helper lemmas -/

/-- The result of `logInsert` never has more than 20 entries. -/
theorem logInsert_length_le (evs : List EventRec) (e : EventRec) :
    (logInsert evs e).length ≤ 20 := by
  unfold logInsert
  split
  · simp [List.length_take]
  · omega

/-- Folding `logInsert` over any event sequence from a start of length
at most 20 keeps the length at most 20. -/
theorem foldl_logInsert_length_le (es : List EventRec) :
    ∀ init : List EventRec, init.length ≤ 20 →
      (es.foldl logInsert init).length ≤ 20 := by
  induction es with
  | nil => intro init h; simpa using h
  | cons e es ih =>
    intro init _
    simpa using ih (logInsert init e) (logInsert_length_le init e)

theorem zipWith_absdiffPx_self (l : List Nat) :
    ∀ v ∈ List.zipWith absdiffPx l l, v = 0 := by
  induction l with
  | nil => simp
  | cons a t ih =>
    intro v hv
    rcases List.mem_cons.mp hv with h | h
    · simp [h, absdiffPx]
    · exact ih v h

theorem absdiffImg_self_zero (g : Image) : IsZeroImg (absdiffImg g g) := by
  induction g with
  | nil => intro row h; simp [absdiffImg] at h
  | cons r t ih =>
    intro row hrow
    rcases List.mem_cons.mp hrow with h | h
    · intro v hv
      subst h
      exact zipWith_absdiffPx_self r v hv
    · exact ih row h

theorem thresholdBin_zero (c : Nat) (img : Image) (h : IsZeroImg img) :
    IsZeroImg (thresholdBin c img) := by
  intro row hrow v hv
  rcases List.mem_map.mp hrow with ⟨r, hr, rfl⟩
  rcases List.mem_map.mp hv with ⟨x, hx, rfl⟩
  have hx0 : x = 0 := h r hr x hx
  simp [hx0]

theorem rowGetD_zero (l : List Nat) (h : ∀ v ∈ l, v = 0) (j : Nat) :
    l.getD j 0 = 0 := by
  induction l generalizing j with
  | nil => simp
  | cons a t ih =>
    cases j with
    | zero => simpa using h a (by simp)
    | succ j =>
      simpa using ih (fun v hv => h v (by simp [hv])) j

theorem imgRows_zero (img : Image) (h : IsZeroImg img) (i : Nat) :
    ∀ v ∈ img.getD i [], v = 0 := by
  induction img generalizing i with
  | nil => simp
  | cons r t ih =>
    cases i with
    | zero => simpa using h r (by simp)
    | succ i =>
      simpa using ih (fun row hrow => h row (by simp [hrow])) i

theorem getPx_zero (img : Image) (h : IsZeroImg img) (i j : Nat) :
    getPx img i j = 0 :=
  rowGetD_zero _ (imgRows_zero img h i) j

theorem getPxI_zero (img : Image) (h : IsZeroImg img) (i j : Int) :
    getPxI img i j = 0 := by
  unfold getPxI
  split
  · exact getPx_zero img h _ _
  · rfl

theorem foldl_max_zero (l : List Nat) (h : ∀ x ∈ l, x = 0) :
    l.foldl max 0 = 0 := by
  induction l with
  | nil => rfl
  | cons a t ih =>
    have ha : a = 0 := h a (by simp)
    simpa [ha] using ih (fun x hx => h x (by simp [hx]))

theorem neighborhoodMax_zero (img : Image) (h : IsZeroImg img) (i j : Nat) :
    neighborhoodMax img i j = 0 := by
  unfold neighborhoodMax
  apply foldl_max_zero
  intro x hx
  rcases List.mem_map.mp hx with ⟨d, _, rfl⟩
  exact getPxI_zero img h _ _

theorem dilateImg_zero (img : Image) (h : IsZeroImg img) :
    IsZeroImg (dilateImg img) := by
  intro row hrow v hv
  rcases List.mem_map.mp hrow with ⟨ir, _, rfl⟩
  rcases List.mem_map.mp hv with ⟨jv, _, rfl⟩
  exact neighborhoodMax_zero img h ir.1 jv.1

theorem dilateIter_zero (n : Nat) (img : Image) (h : IsZeroImg img) :
    IsZeroImg (dilateIter n img) := by
  induction n generalizing img with
  | zero => exact h
  | succ n ih => exact ih (dilateImg img) (dilateImg_zero img h)

theorem nonzeroPx_zero (img : Image) (h : IsZeroImg img) :
    nonzeroPx img = [] := by
  unfold nonzeroPx
  rw [List.flatten_eq_nil_iff]
  intro inner hinner
  rcases List.mem_map.mp hinner with ⟨ir, hir, rfl⟩
  rw [List.filterMap_eq_nil_iff]
  intro jv hjv
  have hmem : ir.2 ∈ img := by
    rw [List.mem_enum_iff_getElem?] at hir
    exact List.getElem?_mem hir
  have hv : jv.2 ∈ ir.2 := by
    rw [List.mem_enum_iff_getElem?] at hjv
    exact List.getElem?_mem hjv
  have : jv.2 = 0 := h ir.2 hmem jv.2 hv
  simp [this]

theorem findContoursExt_zero (img : Image) (h : IsZeroImg img) :
    findContoursExt img = [] := by
  unfold findContoursExt
  rw [nonzeroPx_zero img h]
  rfl

/-! ## Claim theorems -/

/-- Claim C1: with the 5-second cooldown of `generate_frames`, positive
detections at times `t0`, `t0+1` and `t0+6` create exactly the events at
`t0` and `t0+6` (the detection at `t0+1` creates none); and in general a
positive detection creates a new event if and only if no prior event
exists (`last_motion_time is None`) or `now - last_motion_time > 5`. -/
theorem debounce_three_detections :
    (∀ t0 : Int,
      debounceRun none [(t0, true), (t0 + 1, true), (t0 + 6, true)]
        = [true, false, true]) ∧
    (∀ (last : Option Int) (now : Int),
      (debounceStep last (now, true)).2 = true ↔
        last = none ∨ ∃ l, last = some l ∧ now - l > 5) := by
  constructor
  · intro t0
    have h1 : ¬ (t0 + 1 - t0 > 5) := by omega
    have h6 : t0 + 6 - t0 > 5 := by omega
    simp [debounceRun, debounceStep, h1, h6]
  · intro last now
    cases last with
    | none => simp [debounceStep]
    | some l =>
      by_cases h : now - l > 5
      · simp [debounceStep, h]
      · simp [debounceStep, h]

/-- Claim C2: for every sequence of created events, the `motion_events` log
never exceeds 20 entries; every new event is inserted at the head
(newest first), and what `logInsert` keeps is an initial segment of the
extended list, so eviction removes only from the tail. -/
theorem motion_events_bounded :
    (∀ es : List EventRec, (es.foldl logInsert []).length ≤ 20) ∧
    (∀ (evs : List EventRec) (e : EventRec),
      (logInsert evs e).head? = some e) ∧
    (∀ (evs : List EventRec) (e : EventRec),
      ∃ dropped, e :: evs = logInsert evs e ++ dropped) := by
  refine ⟨?_, ?_, ?_⟩
  · intro es
    exact foldl_logInsert_length_le es [] (by simp)
  · intro evs e
    unfold logInsert
    split
    · rw [show (20 : Nat) = 19 + 1 from rfl, List.take_succ_cons]
      rfl
    · rfl
  · intro evs e
    unfold logInsert
    split
    · exact ⟨(e :: evs).drop 20, (List.take_append_drop 20 (e :: evs)).symm⟩
    · exact ⟨[], by simp⟩

/-- Claim C3: `detect_motion` computes grayscale conversion of both frames,
absolute per-pixel difference, binarization at cutoff 25, dilation with 2
iterations, external-contour extraction and area summation, exactly the
pipeline stated by the spec (`specDetect`); its detected flag equals
(sum of the areas of the returned contours > motion_threshold), with the
threshold an explicit tunable argument. -/
theorem detect_motion_matches_spec :
    ∀ (motion_threshold : Nat) (frame1 frame2 : FrameC),
      detect_motion motion_threshold frame1 frame2 =
        ((specDetect motion_threshold frame1 frame2).1,
         (specDetect motion_threshold frame1 frame2).2.1,
         findContoursExt (specDetect motion_threshold frame1 frame2).2.1) ∧
      ((detect_motion motion_threshold frame1 frame2).1 = true ↔
        (((detect_motion motion_threshold frame1 frame2).2.2).map
          contourArea).sum > motion_threshold) := by
  intro thr f1 f2
  constructor
  · rfl
  · simp [detect_motion]

/-- Claim C4: on two identical frames `detect_motion` reports no motion and a
changed area of 0 (the returned contour list has total area 0), for every
threshold. -/
theorem detect_motion_identical_frames (motion_threshold : Nat) (f : FrameC) :
    (detect_motion motion_threshold f f).1 = false ∧
    (((detect_motion motion_threshold f f).2.2).map contourArea).sum = 0 := by
  have hmask : IsZeroImg (dilateIter 2 (thresholdBin 25
      (absdiffImg (cvtColorBGR2GRAY f) (cvtColorBGR2GRAY f)))) :=
    dilateIter_zero 2 _ (thresholdBin_zero 25 _ (absdiffImg_self_zero _))
  have hc := findContoursExt_zero _ hmask
  constructor
  · simp [detect_motion, hc]
  · simp [detect_motion, hc]

/-- Claim C5: before the first publish `latest` returns `None`
(`output_frame` starts as `None`); after publishing `F` the latest frame
is `F`, and it stays `F` under further reads until the next publish
(reading never changes the state, so the state after `fs ++ [f]`
publishes is `some f`). -/
theorem latest_frame_publisher :
    latestFrame initialOutputFrame = none ∧
    (∀ (fs : List FrameC) (f : FrameC),
      latestFrame (runPublishes (fs ++ [f])) = some f) ∧
    (∀ (s : Option FrameC) (f : FrameC),
      latestFrame (publishFrame f s) = some f) ∧
    (∀ f : FrameC, videoFeedYield (some f) = some f) := by
  refine ⟨rfl, ?_, fun s f => rfl, fun f => rfl⟩
  intro fs f
  simp [runPublishes, List.foldl_append, latestFrame, publishFrame]

/-- Claim C6 (code behaviour at the failing input): when `cv2.imwrite` raises,
the event-creation block of `generate_frames` propagates the exception
(the acquisition generator dies), and when `cv2.imwrite` merely returns
`False` the event record is still inserted into `motion_events` — the
record is not suppressed and no diagnostic is produced. -/
theorem imwrite_failure_behavior :
    createEventWithWrite WriteOutcome.raised []
        ⟨"2025-01-01 00:00:00", "motion_20250101_000000.jpg",
         "static/captures/motion_20250101_000000.jpg"⟩
      = Except.error "uncaught exception from cv2.imwrite" ∧
    createEventWithWrite WriteOutcome.returnedFalse []
        ⟨"2025-01-01 00:00:00", "motion_20250101_000000.jpg",
         "static/captures/motion_20250101_000000.jpg"⟩
      = Except.ok [⟨"2025-01-01 00:00:00", "motion_20250101_000000.jpg",
         "static/captures/motion_20250101_000000.jpg"⟩] := by
  exact ⟨rfl, rfl⟩

/-- Claim C7 (code behaviour at the failing input): given the read trace
(success, single failure, success), the `while True` loop of
`generate_frames` processes only the first frame — the single failed
`camera.read()` executes `break` and the later successful frame is never
processed. -/
theorem single_read_failure_ends_loop :
    acquisitionReads
        [some [[(0, 0, 0)]], none, some [[(9, 9, 9)]]]
      = [[[(0, 0, 0)]]] := by
  rfl

/-- Claim C8: in every processed iteration that creates an event, the snapshot
persisted for the event is the raw current frame — not the copy on which
`cv2.drawContours` and `cv2.putText` drew — while the frame stored into
`output_frame` is that annotated copy. -/
theorem event_snapshot_unannotated
    (drawContoursFn : FrameC → List (List Pt) → FrameC)
    (putTextFn : FrameC → String → FrameC)
    (motion_threshold : Nat) (prev_frame frame : FrameC)
    (timestamp : String) (current_time : Int) (last_motion_time : Option Int)
    (h : (debounceStep last_motion_time (current_time,
          (detect_motion motion_threshold prev_frame frame).1)).2 = true) :
    (processEvenFrame drawContoursFn putTextFn motion_threshold prev_frame
        frame timestamp current_time last_motion_time).snapshot = some frame ∧
    (processEvenFrame drawContoursFn putTextFn motion_threshold prev_frame
        frame timestamp current_time last_motion_time).out_frame =
      putTextFn (drawContoursFn frame
        (detect_motion motion_threshold prev_frame frame).2.2) timestamp := by
  constructor
  · simp [processEvenFrame, h]
  · rfl

/-- Witness for C8: a concrete iteration (1x1 frames, black to white,
threshold 0, no prior event) in which the event is created; its snapshot
is the raw white frame and the published frame is the annotated copy. -/
theorem event_snapshot_unannotated_witness :
    (processEvenFrame (fun f _ => f) (fun f _ => f) 0 [[(0, 0, 0)]]
        [[(255, 255, 255)]] "t" 0 none).snapshot = some [[(255, 255, 255)]] ∧
    (processEvenFrame (fun f _ => f) (fun f _ => f) 0 [[(0, 0, 0)]]
        [[(255, 255, 255)]] "t" 0 none).out_frame = [[(255, 255, 255)]] :=
  event_snapshot_unannotated (fun f _ => f) (fun f _ => f) 0 [[(0, 0, 0)]]
    [[(255, 255, 255)]] "t" 0 none (by decide)

/-- Claim C9: on device-open failure `generate_frames` publishes the static
placeholder — the solid black 480x640 frame with the fixed
"Camera not available" text drawn on it — independently of any previous
state, so `latest` no longer returns `None` and the video-feed consumer
receives the placeholder frame. -/
theorem camera_unavailable_placeholder :
    ∀ (putTextFn : FrameC → String → FrameC) (s s' : Option FrameC),
      cameraFailurePath putTextFn s
        = some (putTextFn blankFrame "Camera not available") ∧
      cameraFailurePath putTextFn s = cameraFailurePath putTextFn s' ∧
      latestFrame (cameraFailurePath putTextFn s) ≠ none ∧
      videoFeedYield (cameraFailurePath putTextFn s)
        = some (putTextFn blankFrame "Camera not available") := by
  intro fn s s'
  exact ⟨rfl, rfl, by simp [cameraFailurePath, latestFrame], rfl⟩

/-- Claim C10: for every request, when the submitted email password is
absent or empty the stored password is unchanged (whatever the rest of
the form holds), and independently likewise the Twilio auth token; and
every other email and Twilio field is always overwritten with the
submitted value (presence for the enabled flags, `''` default for the
strings, 587 for the port). -/
theorem update_settings_password_preserved :
    (∀ (settings : Settings) (form : SettingsForm),
      pyTruthy form.email_password = false →
        (update_settings settings form).email.password
          = settings.email.password) ∧
    (∀ (settings : Settings) (form : SettingsForm),
      pyTruthy form.twilio_auth_token = false →
        (update_settings settings form).twilio.auth_token
          = settings.twilio.auth_token) ∧
    (∀ (settings : Settings) (form : SettingsForm),
      (update_settings settings form).email.enabled
          = form.email_enabled.isSome ∧
      (update_settings settings form).email.smtp_server
          = form.smtp_server.getD "" ∧
      (update_settings settings form).email.smtp_port
          = form.smtp_port.getD 587 ∧
      (update_settings settings form).email.username
          = form.email_username.getD "" ∧
      (update_settings settings form).email.recipient
          = form.email_recipient.getD "" ∧
      (update_settings settings form).twilio.enabled
          = form.twilio_enabled.isSome ∧
      (update_settings settings form).twilio.account_sid
          = form.twilio_account_sid.getD "" ∧
      (update_settings settings form).twilio.from_number
          = form.twilio_from_number.getD "" ∧
      (update_settings settings form).twilio.to_number
          = form.twilio_to_number.getD "") := by
  refine ⟨?_, ?_, fun settings form =>
    ⟨rfl, rfl, rfl, rfl, rfl, rfl, rfl, rfl, rfl⟩⟩
  · intro settings form hp
    cases hfp : form.email_password with
    | none => simp [update_settings, hfp]
    | some s =>
      rw [hfp] at hp
      simp [pyTruthy] at hp
      simp [update_settings, hfp, hp]
  · intro settings form ht
    cases hft : form.twilio_auth_token with
    | none => simp [update_settings, hft]
    | some s =>
      rw [hft] at ht
      simp [pyTruthy] at ht
      simp [update_settings, hft, ht]

/-- Witness for C10: the two preservation conditions are discharged
independently — a request submitting an empty password together with a
new (truthy) Twilio token keeps the stored password, and a request
submitting a new password with the token field absent keeps the stored
token. -/
theorem update_settings_password_preserved_witness :
    (update_settings
        ⟨⟨true, "smtp.old.example", 25, "olduser", "secret", "oldrcpt"⟩,
         ⟨false, "SIDOLD", "tok", "+15550001111", "+15550002222"⟩⟩
        ⟨some "on", some "smtp.new.example", some 465, some "newuser",
         some "", some "newrcpt", some "on", some "SIDNEW", some "newtok",
         some "+15550003333", some "+15550004444"⟩).email.password
      = "secret" ∧
    (update_settings
        ⟨⟨true, "smtp.old.example", 25, "olduser", "secret", "oldrcpt"⟩,
         ⟨false, "SIDOLD", "tok", "+15550001111", "+15550002222"⟩⟩
        ⟨some "on", some "smtp.new.example", some 465, some "newuser",
         some "newpass", some "newrcpt", none, some "SIDNEW", none,
         some "+15550003333", some "+15550004444"⟩).twilio.auth_token
      = "tok" := by
  have h := update_settings_password_preserved
  exact ⟨h.1
      ⟨⟨true, "smtp.old.example", 25, "olduser", "secret", "oldrcpt"⟩,
       ⟨false, "SIDOLD", "tok", "+15550001111", "+15550002222"⟩⟩
      ⟨some "on", some "smtp.new.example", some 465, some "newuser",
       some "", some "newrcpt", some "on", some "SIDNEW", some "newtok",
       some "+15550003333", some "+15550004444"⟩ (by decide),
    h.2.1
      ⟨⟨true, "smtp.old.example", 25, "olduser", "secret", "oldrcpt"⟩,
       ⟨false, "SIDOLD", "tok", "+15550001111", "+15550002222"⟩⟩
      ⟨some "on", some "smtp.new.example", some 465, some "newuser",
       some "newpass", some "newrcpt", none, some "SIDNEW", none,
       some "+15550003333", some "+15550004444"⟩ (by decide)⟩

end SecurityCamera
